/-
Verification of the invoice core of `tek-fatura-app`
(src/components/InvoiceApp.tsx): the TCKN/VKN identifier validators,
the invoice totals calculator, the currency formatter and the
save-invoice workflow, shallowly embedded in Lean 4.

Modelling conventions:
  * JavaScript numbers are modelled as rationals (ℚ); machine floating
    point is abstracted away, arithmetic is exact.
  * JS `Math.round(x)` rounds to the nearest integer with ties toward
    +∞, i.e. ⌊x + 1/2⌋ on ℚ.
  * JS `%` on integers is the truncated remainder (sign of the
    dividend), i.e. `Int.tmod`.
  * Strings are Lean `String`s; `String.data` gives the character list.
    JS `trim` is modelled by dropping whitespace at both ends.
-/
import Mathlib

set_option maxRecDepth 4000

/-! ### String helpers (JS primitives used by the source) -/

/-- JS `String.prototype.trim`: drop whitespace from both ends. -/
def jsTrim (s : String) : String :=
  String.mk (((s.data.dropWhile Char.isWhitespace).reverse.dropWhile
    Char.isWhitespace).reverse)

/-- Character value of an ASCII digit, JS `Number(d)` on a single digit
(the source does `tckn.split('').map(Number)`). -/
def digitVal (c : Char) : ℕ := c.toNat - 48

/-- Digit list of a string, as in `s.split('').map(Number)` on an
all-digit string. -/
def strDigits (s : String) : List ℕ := s.data.map digitVal

/-- The test `/^\d{11}$/.test s` (resp. `\d{10}`): exactly `n` ASCII
digits. -/
def allDigitsLen (s : String) (n : ℕ) : Bool :=
  s.data.length == n && s.data.all Char.isDigit

/-! ### Identifier validators (InvoiceApp.tsx lines 41–72) -/

/-- `validateTCKN` from the source, with JS `%` modelled as `Int.tmod`
(truncated remainder, sign of the dividend). -/
def validateTCKN (tckn : String) : Bool :=
  if allDigitsLen tckn 11 then
    let digits := strDigits tckn
    if digits.getD 0 0 == 0 then false
    else
      let oddSum : ℤ := digits.getD 0 0 + digits.getD 2 0 + digits.getD 4 0
        + digits.getD 6 0 + digits.getD 8 0
      let evenSum : ℤ := digits.getD 1 0 + digits.getD 3 0 + digits.getD 5 0
        + digits.getD 7 0
      let checkDigit1 : ℤ := Int.tmod (oddSum * 7 - evenSum) 10
      let checkDigit2 : ℤ := Int.tmod (oddSum + evenSum + digits.getD 9 0) 10
      (digits.getD 9 0 : ℤ) == checkDigit1 && (digits.getD 10 0 : ℤ) == checkDigit2
  else false

/-- The TCKN check as the spec words it (§4.1): the first check digit is
`((oddSum*7) - evenSum) mod 10` with the modulus normalized into [0,9]
(mathematically positive, `Int.emod`). Kept side by side with
`validateTCKN` to compare the code with the spec. -/
def validateTCKN_spec (tckn : String) : Bool :=
  if allDigitsLen tckn 11 then
    let digits := strDigits tckn
    if digits.getD 0 0 == 0 then false
    else
      let oddSum : ℤ := digits.getD 0 0 + digits.getD 2 0 + digits.getD 4 0
        + digits.getD 6 0 + digits.getD 8 0
      let evenSum : ℤ := digits.getD 1 0 + digits.getD 3 0 + digits.getD 5 0
        + digits.getD 7 0
      let checkDigit1 : ℤ := Int.emod (oddSum * 7 - evenSum) 10
      let checkDigit2 : ℤ := Int.emod (oddSum + evenSum + digits.getD 9 0) 10
      (digits.getD 9 0 : ℤ) == checkDigit1 && (digits.getD 10 0 : ℤ) == checkDigit2
  else false

/-- `validateVKN` from the source: weighted sum of the first nine digits
with weights [9,8,7,6,5,4,3,2,1], `remainder = sum % 11`, check digit
`remainder` if `remainder < 2` else `11 - remainder`, compared with the
tenth digit. -/
def validateVKN (vkn : String) : Bool :=
  if allDigitsLen vkn 10 then
    let digits := strDigits vkn
    let weights : List ℕ := [9, 8, 7, 6, 5, 4, 3, 2, 1]
    let sum := (List.zipWith (fun d w => d * w) digits weights).sum
    let remainder := sum % 11
    let checkDigit := if remainder < 2 then remainder else 11 - remainder
    digits.getD 9 0 == checkDigit
  else false

/-! ### Rounding (JS `Math.round`) and the round-half-away-from-zero
policy named by the spec -/

/-- JS `Math.round`: nearest integer, ties toward +∞, i.e. ⌊q + 1/2⌋. -/
def jsRound (q : ℚ) : ℤ := ⌊q + 1/2⌋

/-- `Math.round(x * 100) / 100`, the 2-decimal rounding the source
applies to the grand total. -/
def jsRound2 (q : ℚ) : ℚ := ((jsRound (q * 100) : ℤ) : ℚ) / 100

/-- Round to the nearest integer with ties away from zero (the rounding
the spec names for the grand total). -/
def roundAway (q : ℚ) : ℤ := if 0 ≤ q then ⌊q + 1/2⌋ else -⌊-q + 1/2⌋

/-- Round-half-away-from-zero at the 2-decimal boundary. -/
def roundAway2 (q : ℚ) : ℚ := ((roundAway (q * 100) : ℤ) : ℚ) / 100

/-! ### Currency presentation (`formatTurkishCurrency`, lines 28–38)

`Intl.NumberFormat('tr-TR', currency TRY, 2 fraction digits)` renders a
number as `₺` followed by the integer part grouped in threes by `.` and
two fraction digits after `,` (default ECMA-402 rounding: half away
from zero). Modelled concretely below; the `Number.isFinite` guard of
the source is vacuous over ℚ, where every value is finite. -/

/-- Insert `.` thousands separators into a digit list given
least-significant first. -/
def groupDigitsRev : List Char → List Char
  | c1 :: c2 :: c3 :: c4 :: rest =>
      c1 :: c2 :: c3 :: '.' :: groupDigitsRev (c4 :: rest)
  | l => l

/-- Turkish-locale rendering of a whole number of kuruş (cents) as
`<grouped lira>,<2-digit kuruş>`. -/
def renderKurus (cents : ℕ) : String :=
  let lira := cents / 100
  let kurus := cents % 100
  let liraStr := String.mk (groupDigitsRev (toString lira).data.reverse).reverse
  let kurusStr := if kurus < 10 then "0" ++ toString kurus else toString kurus
  liraStr ++ "," ++ kurusStr

/-- `Intl.NumberFormat('tr-TR', { style: 'currency', currency: 'TRY',
minimumFractionDigits: 2, maximumFractionDigits: 2 }).format`. -/
def intlFormatTRY (amount : ℚ) : String :=
  "₺" ++ renderKurus (roundAway (amount * 100)).natAbs

/-- `formatTurkishCurrency` from the source: formats the absolute value
of the amount (the non-finite branch returning `₺0,00` has no
counterpart over ℚ). -/
def formatTurkishCurrency (amount : ℚ) : String :=
  intlFormatTRY |amount|

/-! ### Data model (InvoiceApp.tsx lines 112–172) -/

/-- `Company` (seller profile). -/
structure Company where
  firmaAdi : String
  vkn : String
  vergiDairesi : String
  adres : String
  email : String
  telefon : String
  seri : String
  sira : ℕ
  paraBirimi : String
  varsayilanKdv : ℚ
  deriving Repr, DecidableEq

/-- Customer kind: `'bireysel' | 'kurumsal'`. -/
inductive CustomerTip where
  | bireysel
  | kurumsal
  deriving Repr, DecidableEq

/-- `Customer`. The optional TS field `vergiDairesi?` is modelled as a
plain string, the absent value being `""` (JS `undefined?.trim()` and
`''.trim()` are equally falsy in the guard that reads it). -/
structure Customer where
  id : String
  tip : CustomerTip
  unvanVeyaAdSoyad : String
  vknVeyaTckn : String
  vergiDairesi : String
  adres : String
  email : String
  telefon : String
  deriving Repr, DecidableEq

/-- `InvoiceLine`: the last three fields are the derived ones. -/
structure InvoiceLine where
  id : String
  urunAdi : String
  aciklama : String
  adet : ℚ
  birim : String
  birimFiyat : ℚ
  iskontoYuzde : ℚ
  kdvOran : ℚ
  araToplam : ℚ
  kdvTutar : ℚ
  toplam : ℚ
  deriving Repr, DecidableEq

/-- Invoice status: `'taslak' | 'tamamlandi'`. -/
inductive Durum where
  | taslak
  | tamamlandi
  deriving Repr, DecidableEq

/-- `Invoice`. -/
structure Invoice where
  id : String
  faturaNo : String
  tarih : String
  satici : Company
  alici : Customer
  satirlar : List InvoiceLine
  belgeBazliIskontoYuzde : ℚ
  araToplam : ℚ
  iskontoToplam : ℚ
  kdvToplam : ℚ
  genelToplam : ℚ
  not : String
  durum : Durum
  deriving Repr, DecidableEq

/-! ### The totals calculator (`calculatedInvoice`, lines 260–292) -/

/-- `satirAraToplam = line.adet * line.birimFiyat` (line gross). -/
def lineGross (line : InvoiceLine) : ℚ := line.adet * line.birimFiyat

/-- `satirIskontoTutar = satirAraToplam * (line.iskontoYuzde / 100)`. -/
def lineDiscount (line : InvoiceLine) : ℚ :=
  lineGross line * (line.iskontoYuzde / 100)

/-- `satirNetTutar = satirAraToplam - satirIskontoTutar`. -/
def lineNet (line : InvoiceLine) : ℚ := lineGross line - lineDiscount line

/-- `satirKdvTutar = satirNetTutar * (line.kdvOran / 100)`. -/
def lineTax (line : InvoiceLine) : ℚ := lineNet line * (line.kdvOran / 100)

/-- `satirToplam = satirNetTutar + satirKdvTutar`. -/
def lineTotal (line : InvoiceLine) : ℚ := lineNet line + lineTax line

/-- The per-line update performed inside the `map`: spread the line and
overwrite the three derived fields. -/
def calcLine (line : InvoiceLine) : InvoiceLine :=
  { line with
    araToplam := lineGross line
    kdvTutar := lineTax line
    toplam := lineTotal line }

/-- The document-level result of `calculatedInvoice`. -/
structure CalcResult where
  satirlar : List InvoiceLine
  araToplam : ℚ
  iskontoToplam : ℚ
  kdvToplam : ℚ
  genelToplam : ℚ
  deriving Repr, DecidableEq

/-- `calculatedInvoice` (lines 260–292): per-line derivation via `map`
(the running `araToplam += satirNetTutar` accumulator is the sum of
`lineNet` over the input lines), then the document aggregates, with
only `genelToplam` rounded, by `Math.round(x * 100) / 100`. -/
def calculateInvoice (satirlar : List InvoiceLine)
    (belgeBazliIskontoYuzde : ℚ) : CalcResult :=
  let updatedLines := satirlar.map calcLine
  let araToplam := (satirlar.map lineNet).sum
  let belgeIskontoTutar := araToplam * (belgeBazliIskontoYuzde / 100)
  let netAraToplam := araToplam - belgeIskontoTutar
  let kdvToplam := (updatedLines.map (fun line => line.kdvTutar)).sum
  let genelToplam := netAraToplam + kdvToplam
  { satirlar := updatedLines
    araToplam := netAraToplam
    iskontoToplam := belgeIskontoTutar
    kdvToplam := kdvToplam
    genelToplam := jsRound2 genelToplam }

/-! ### Save workflow (lines 343–348, 380–496) -/

/-- The email regex `/^[^\s@]+@[^\s@]+\.[^\s@]+$/` of
`validateCustomer`: the string matches iff it has exactly one `@`, a
nonempty whitespace-free part before it, and a nonempty whitespace-free
part after it containing a `.` that is neither its first nor its last
character. -/
def emailMatches (s : String) : Bool :=
  let cs := s.data
  let okChar := fun (c : Char) => !c.isWhitespace && c != '@'
  let before := cs.takeWhile (fun c => c != '@')
  let after := (cs.dropWhile (fun c => c != '@')).drop 1
  cs.count '@' == 1 && !before.isEmpty && before.all okChar &&
    !after.isEmpty && after.all okChar &&
    ((after.drop 1).dropLast).contains '.'

/-- `validateCustomer` (lines 380–411): collects the error messages in
source order; `isValid` is emptiness of that list. -/
def validateCustomer (customer : Customer) : Bool × List String :=
  let errors : List String := []
  let errors :=
    if jsTrim customer.unvanVeyaAdSoyad = "" then
      errors ++ ["Ünvan/Ad Soyad gereklidir"]
    else errors
  let errors :=
    if jsTrim customer.vknVeyaTckn = "" then errors ++ ["VKN/TCKN gereklidir"]
    else
      match customer.tip with
      | CustomerTip.bireysel =>
          if validateTCKN customer.vknVeyaTckn then errors
          else errors ++ ["Geçersiz TCKN"]
      | CustomerTip.kurumsal =>
          let errors :=
            if validateVKN customer.vknVeyaTckn then errors
            else errors ++ ["Geçersiz VKN"]
          if jsTrim customer.vergiDairesi = "" then
            errors ++ ["Vergi dairesi gereklidir"]
          else errors
  let errors :=
    if jsTrim customer.adres = "" then errors ++ ["Adres gereklidir"]
    else errors
  let errors :=
    if customer.email ≠ "" ∧ ¬ emailMatches customer.email then
      errors ++ ["Geçersiz e-mail adresi"]
    else errors
  (errors.isEmpty, errors)

/-- `validateInvoiceLines` (lines 413–437): an empty list is rejected
outright; otherwise each line contributes up to four messages, indexed
from 1, in source order. -/
def validateInvoiceLines (lines : List InvoiceLine) : Bool × List String :=
  if lines.length = 0 then
    (false, ["En az bir ürün/hizmet satırı ekleyin"])
  else
    let errors := lines.enum.foldl (fun acc p =>
      let index := p.1
      let line := p.2
      let acc :=
        if jsTrim line.urunAdi = "" then
          acc ++ [toString (index + 1) ++ ". satır: Ürün adı gereklidir"]
        else acc
      let acc :=
        if line.adet ≤ 0 then
          acc ++ [toString (index + 1) ++ ". satır: Adet 0\x27dan büyük olmalıdır"]
        else acc
      let acc :=
        if line.birimFiyat < 0 then
          acc ++ [toString (index + 1) ++ ". satır: Birim fiyat negatif olamaz"]
        else acc
      let acc :=
        if line.kdvOran < 0 ∨ line.kdvOran > 100 then
          acc ++ [toString (index + 1) ++ ". satır: KDV oranı 0-100 arasında olmalıdır"]
        else acc
      acc) []
    (errors.isEmpty, errors)

/-- JS `String.prototype.padStart(n, c)`. -/
def jsPadStart (s : String) (n : ℕ) (c : Char) : String :=
  String.mk (List.replicate (n - s.data.length) c) ++ s

/-- `generateInvoiceNumber` (lines 344–348):
`<seri><year>-<6-zero-padded sira>`. The current year is a parameter
(it comes from the clock in the source). -/
def generateInvoiceNumber (company : Company) (year : ℕ) : String :=
  company.seri ++ toString year ++ "-" ++ jsPadStart (toString company.sira) 6 '0'

/-- The in-memory state touched by `saveInvoice`: the company profile,
the invoices catalog and the invoice being edited. -/
structure AppState where
  company : Company
  invoices : List Invoice
  currentInvoice : Invoice
  deriving Repr, DecidableEq

/-- `invoiceToSave` (lines 463–469): spread of the current invoice with
`id` and `faturaNo` defaulted when empty (JS `||`), the requested
status, and the current company as seller. `nowId` stands for
`Date.now().toString()`. -/
def savedInvoice (st : AppState) (status : Durum) (nowId : String)
    (year : ℕ) : Invoice :=
  { st.currentInvoice with
    id := if st.currentInvoice.id = "" then nowId else st.currentInvoice.id
    faturaNo :=
      if st.currentInvoice.faturaNo = "" then generateInvoiceNumber st.company year
      else st.currentInvoice.faturaNo
    durum := status
    satici := st.company }

/-- `saveInvoice` (lines 440–496) as a state transition. It returns the
new state and the list of validation error messages surfaced to the
user (empty on success; the source joins them into one toast). On
validation failure it returns before touching any state. On success the
catalog entry with the saved id is replaced in place if present,
appended otherwise (`findIndex` / spread-update), and the company
sequence number is incremented in the same step exactly when the status
is `tamamlandi`. -/
def saveInvoice (st : AppState) (status : Durum) (nowId : String)
    (year : ℕ) : AppState × List String :=
  let customerValidation := validateCustomer st.currentInvoice.alici
  if customerValidation.1 = false then (st, customerValidation.2)
  else
    let linesValidation := validateInvoiceLines st.currentInvoice.satirlar
    if linesValidation.1 = false then (st, linesValidation.2)
    else
      let invoiceToSave := savedInvoice st status nowId year
      let invoices :=
        match st.invoices.findIdx? (fun inv => inv.id == invoiceToSave.id) with
        | some existingIndex => st.invoices.set existingIndex invoiceToSave
        | none => st.invoices ++ [invoiceToSave]
      let company :=
        if status = Durum.tamamlandi then
          { st.company with sira := st.company.sira + 1 }
        else st.company
      ({ company := company, invoices := invoices,
         currentInvoice := st.currentInvoice }, [])

/-! ### Helper lemmas shared by the claim theorems -/

theorem calc_satirlar_eq (lines : List InvoiceLine) (d : ℚ) :
    (calculateInvoice lines d).satirlar = lines.map calcLine := rfl

theorem calc_araToplam_eq (lines : List InvoiceLine) (d : ℚ) :
    (calculateInvoice lines d).araToplam =
      (lines.map lineNet).sum - (lines.map lineNet).sum * (d / 100) := rfl

theorem calc_iskontoToplam_eq (lines : List InvoiceLine) (d : ℚ) :
    (calculateInvoice lines d).iskontoToplam =
      (lines.map lineNet).sum * (d / 100) := rfl

theorem calc_kdvToplam_eq (lines : List InvoiceLine) (d : ℚ) :
    (calculateInvoice lines d).kdvToplam = (lines.map lineTax).sum := by
  show ((lines.map calcLine).map (fun l => l.kdvTutar)).sum = _
  rw [List.map_map]
  rfl

theorem calc_genelToplam_eq (lines : List InvoiceLine) (d : ℚ) :
    (calculateInvoice lines d).genelToplam =
      jsRound2 ((calculateInvoice lines d).araToplam +
        (calculateInvoice lines d).kdvToplam) := rfl

theorem jsRound2_eq_roundAway2_of_nonneg (q : ℚ) (h : 0 ≤ q) :
    jsRound2 q = roundAway2 q := by
  have h100 : (0:ℚ) ≤ q * 100 := by positivity
  simp [jsRound2, roundAway2, jsRound, roundAway, h100]

theorem jsRound2_intCast (n : ℤ) : jsRound2 ((n : ℤ) : ℚ) = ((n : ℤ) : ℚ) := by
  unfold jsRound2 jsRound
  have h : ((n : ℤ) : ℚ) * 100 = ((100 * n : ℤ) : ℚ) := by push_cast; ring
  rw [h, add_comm, Int.floor_add_int]
  push_cast
  norm_num

theorem validateCustomer_fst (c : Customer) :
    (validateCustomer c).1 = (validateCustomer c).2.isEmpty := rfl

theorem validateInvoiceLines_fst (lines : List InvoiceLine) :
    (validateInvoiceLines lines).1 = (validateInvoiceLines lines).2.isEmpty := by
  unfold validateInvoiceLines
  split <;> rfl

theorem ne_nil_of_isEmpty_false {α : Type} {l : List α} (h : l.isEmpty = false) :
    l ≠ [] := by
  cases l with
  | nil => simp at h
  | cons a t => simp

/-- Unfolding the weighted `zipWith` sum of `validateVKN` on a ten-digit
list into the positional form used by the spec. -/
theorem zipWithWeights_sum (l : List ℕ) (h : l.length = 10) :
    (List.zipWith (fun d w => d * w) l [9, 8, 7, 6, 5, 4, 3, 2, 1]).sum =
      l.getD 0 0 * 9 + l.getD 1 0 * 8 + l.getD 2 0 * 7 + l.getD 3 0 * 6 +
      l.getD 4 0 * 5 + l.getD 5 0 * 4 + l.getD 6 0 * 3 + l.getD 7 0 * 2 +
      l.getD 8 0 * 1 := by
  obtain ⟨a0, l, rfl⟩ := List.exists_of_length_succ l h
  simp only [List.length_cons, Nat.succ_inj] at h
  obtain ⟨a1, l, rfl⟩ := List.exists_of_length_succ l h
  simp only [List.length_cons, Nat.succ_inj] at h
  obtain ⟨a2, l, rfl⟩ := List.exists_of_length_succ l h
  simp only [List.length_cons, Nat.succ_inj] at h
  obtain ⟨a3, l, rfl⟩ := List.exists_of_length_succ l h
  simp only [List.length_cons, Nat.succ_inj] at h
  obtain ⟨a4, l, rfl⟩ := List.exists_of_length_succ l h
  simp only [List.length_cons, Nat.succ_inj] at h
  obtain ⟨a5, l, rfl⟩ := List.exists_of_length_succ l h
  simp only [List.length_cons, Nat.succ_inj] at h
  obtain ⟨a6, l, rfl⟩ := List.exists_of_length_succ l h
  simp only [List.length_cons, Nat.succ_inj] at h
  obtain ⟨a7, l, rfl⟩ := List.exists_of_length_succ l h
  simp only [List.length_cons, Nat.succ_inj] at h
  obtain ⟨a8, l, rfl⟩ := List.exists_of_length_succ l h
  simp only [List.length_cons, Nat.succ_inj] at h
  obtain ⟨a9, l, rfl⟩ := List.exists_of_length_succ l h
  simp only [List.length_cons, Nat.succ_inj] at h
  simp [List.zipWith, List.getD]
  omega

/-- The weighted sum of the first nine digits with the positional
weights `[9,8,7,6,5,4,3,2,1]` (§4.1 of the spec). -/
def vknWeightedSum (l : List ℕ) : ℕ :=
  l.getD 0 0 * 9 + l.getD 1 0 * 8 + l.getD 2 0 * 7 + l.getD 3 0 * 6 +
  l.getD 4 0 * 5 + l.getD 5 0 * 4 + l.getD 6 0 * 3 + l.getD 7 0 * 2 +
  l.getD 8 0 * 1

/-- The VKN check digit: `remainder` when `remainder < 2`, otherwise
`11 - remainder`, with `remainder = sum mod 11`. -/
def vknCheckDigitOf (l : List ℕ) : ℕ :=
  if vknWeightedSum l % 11 < 2 then vknWeightedSum l % 11
  else 11 - vknWeightedSum l % 11

/-- On success `saveInvoice` returns no errors, the replaced-or-appended
catalog, and the company incremented exactly when the status is
`tamamlandi`. -/
theorem saveInvoice_success_eq (st : AppState) (status : Durum) (nowId : String)
    (year : ℕ)
    (h1 : (validateCustomer st.currentInvoice.alici).1 = true)
    (h2 : (validateInvoiceLines st.currentInvoice.satirlar).1 = true) :
    saveInvoice st status nowId year =
      ({ company :=
           if status = Durum.tamamlandi then
             { st.company with sira := st.company.sira + 1 }
           else st.company
         invoices :=
           match st.invoices.findIdx?
               (fun inv => inv.id == (savedInvoice st status nowId year).id) with
           | some existingIndex =>
               st.invoices.set existingIndex (savedInvoice st status nowId year)
           | none => st.invoices ++ [savedInvoice st status nowId year]
         currentInvoice := st.currentInvoice }, []) := by
  unfold saveInvoice
  simp only []
  rw [if_neg (by simp [h1]), if_neg (by simp [h2])]

/-! ### Concrete inputs used by the claim theorems -/

/-- The single example line of the spec: quantity 2, unit price 500, no
line discount, 20% tax. -/
def c1Line : InvoiceLine :=
  { id := "1", urunAdi := "Danışmanlık Hizmeti", aciklama := "", adet := 2
    birim := "Saat", birimFiyat := 500, iskontoYuzde := 0, kdvOran := 20
    araToplam := 0, kdvTutar := 0, toplam := 0 }

/-- A line with a 100.5% line discount (enterable in the line-discount
field, which the UI does not clamp, and not rejected by
`validateInvoiceLines`): its net amount is -0.005, half a cent below
zero. -/
def c2Line : InvoiceLine :=
  { id := "1", urunAdi := "Ürün", aciklama := "", adet := 1
    birim := "Adet", birimFiyat := 1, iskontoYuzde := 201/2, kdvOran := 0
    araToplam := 0, kdvTutar := 0, toplam := 0 }

def cexCompany : Company :=
  { firmaAdi := "Örnek İşletme", vkn := "1234567890", vergiDairesi := "Beyoğlu"
    adres := "İstiklal Cad. No:1", email := "", telefon := "", seri := "A"
    sira := 1, paraBirimi := "TRY", varsayilanKdv := 20 }

def cexCustomer : Customer :=
  { id := "c1", tip := CustomerTip.kurumsal, unvanVeyaAdSoyad := "Örnek Müşteri"
    vknVeyaTckn := "1234567890", vergiDairesi := "Kadıköy", adres := "Adres 2"
    email := "", telefon := "" }

def cexLine : InvoiceLine :=
  { id := "l1", urunAdi := "Hizmet", aciklama := "", adet := 1, birim := "Adet"
    birimFiyat := 100, iskontoYuzde := 0, kdvOran := 20, araToplam := 0
    kdvTutar := 0, toplam := 0 }

/-- A valid invoice under edit, with a nonempty id. -/
def cexInvoice : Invoice :=
  { id := "inv1", faturaNo := "", tarih := "2026-10-11", satici := cexCompany
    alici := cexCustomer, satirlar := [cexLine], belgeBazliIskontoYuzde := 0
    araToplam := 0, iskontoToplam := 0, kdvToplam := 0, genelToplam := 0
    not := "", durum := Durum.taslak }

def cexState0 : AppState :=
  { company := cexCompany, invoices := [], currentInvoice := cexInvoice }

/-- State after finalizing `cexInvoice` once. -/
def cexState1 : AppState := (saveInvoice cexState0 Durum.tamamlandi "1001" 2026).1

/-- The user re-opens the finalized invoice for edit (the catalog's
edit button does `setCurrentInvoice(invoice)`). -/
def cexState1e : AppState :=
  { cexState1 with currentInvoice := cexState1.invoices.getD 0 cexInvoice }

/-- State after finalizing the same invoice a second time. -/
def cexState2 : AppState := (saveInvoice cexState1e Durum.tamamlandi "1002" 2026).1

/-- The same state as `cexState0` but with an empty buyer name. -/
def cexBadState : AppState :=
  { company := cexCompany, invoices := []
    currentInvoice :=
      { cexInvoice with alici := { cexCustomer with unvanVeyaAdSoyad := "" } } }

/-! ### Claim theorems -/

/-- C1: for every list of invoice lines and every document discount
percentage, the calculator computes per line the gross, discount, net,
tax and total by the stated formulas, and at document level returns
subtotal = rawSubtotal - documentDiscountAmt, discountTotal =
documentDiscountAmt = rawSubtotal * (documentDiscountPercent / 100),
and taxTotal = the sum of the per-line taxes, so that taxTotal is
independent of the document discount percentage; in particular the
single line quantity 2, unit price 500, no line discount, 20% tax with
a 10% document discount yields documentDiscountAmt 100, netSubtotal
900, taxTotal 200 and grandTotal 1100. -/
theorem c1_calculator_totals (lines : List InvoiceLine) (d d2 : ℚ) :
    (calculateInvoice lines d).satirlar = lines.map calcLine ∧
    (∀ line : InvoiceLine,
      lineGross line = line.adet * line.birimFiyat ∧
      lineDiscount line = lineGross line * (line.iskontoYuzde / 100) ∧
      lineNet line = lineGross line - lineDiscount line ∧
      lineTax line = lineNet line * (line.kdvOran / 100) ∧
      lineTotal line = lineNet line + lineTax line ∧
      (calcLine line).araToplam = lineGross line ∧
      (calcLine line).kdvTutar = lineTax line ∧
      (calcLine line).toplam = lineTotal line) ∧
    (calculateInvoice lines d).iskontoToplam = (lines.map lineNet).sum * (d / 100) ∧
    (calculateInvoice lines d).araToplam =
      (lines.map lineNet).sum - (lines.map lineNet).sum * (d / 100) ∧
    (calculateInvoice lines d).kdvToplam = (lines.map lineTax).sum ∧
    (calculateInvoice lines d2).kdvToplam = (calculateInvoice lines d).kdvToplam ∧
    ((calculateInvoice [c1Line] 10).iskontoToplam = 100 ∧
     (calculateInvoice [c1Line] 10).araToplam = 900 ∧
     (calculateInvoice [c1Line] 10).kdvToplam = 200 ∧
     (calculateInvoice [c1Line] 10).genelToplam = 1100) := by
  have hnet : (List.map lineNet [c1Line]).sum = 1000 := by
    simp [lineNet, lineGross, lineDiscount, c1Line]
    norm_num
  have htax : (List.map lineTax [c1Line]).sum = 200 := by
    simp [lineTax, lineNet, lineGross, lineDiscount, c1Line]
    norm_num
  refine ⟨rfl, fun line => ⟨rfl, rfl, rfl, rfl, rfl, rfl, rfl, rfl⟩, rfl, rfl,
    calc_kdvToplam_eq lines d, ?_, ?_, ?_, ?_, ?_⟩
  · rw [calc_kdvToplam_eq, calc_kdvToplam_eq]
  · rw [calc_iskontoToplam_eq, hnet]
    norm_num
  · rw [calc_araToplam_eq, hnet]
    norm_num
  · rw [calc_kdvToplam_eq, htax]
  · rw [calc_genelToplam_eq, calc_araToplam_eq, calc_kdvToplam_eq, hnet, htax]
    have h : (1000 : ℚ) - 1000 * (10 / 100) + 200 = ((1100 : ℤ) : ℚ) := by norm_num
    rw [h, jsRound2_intCast]
    norm_num

/-- C2 (amended): the grand total equals netSubtotal + taxTotal rounded
to 2 decimals with JS `Math.round` semantics — nearest, ties toward +∞
(⌊x·100 + 1/2⌋ / 100) — which agrees with round-half-away-from-zero
whenever netSubtotal + taxTotal is nonnegative; the grand total is the
only rounded returned field, the per-line fields and the other three
aggregates being returned at exact precision. -/
theorem c2_grand_total_rounding (lines : List InvoiceLine) (d : ℚ) :
    (calculateInvoice lines d).genelToplam =
      jsRound2 ((calculateInvoice lines d).araToplam +
        (calculateInvoice lines d).kdvToplam) ∧
    jsRound2 ((calculateInvoice lines d).araToplam +
        (calculateInvoice lines d).kdvToplam) =
      ((⌊((calculateInvoice lines d).araToplam +
          (calculateInvoice lines d).kdvToplam) * 100 + 1/2⌋ : ℤ) : ℚ) / 100 ∧
    (0 ≤ (calculateInvoice lines d).araToplam + (calculateInvoice lines d).kdvToplam →
      (calculateInvoice lines d).genelToplam =
        roundAway2 ((calculateInvoice lines d).araToplam +
          (calculateInvoice lines d).kdvToplam)) ∧
    (calculateInvoice lines d).satirlar = lines.map calcLine ∧
    (calculateInvoice lines d).araToplam =
      (lines.map lineNet).sum - (lines.map lineNet).sum * (d / 100) ∧
    (calculateInvoice lines d).iskontoToplam = (lines.map lineNet).sum * (d / 100) ∧
    (calculateInvoice lines d).kdvToplam = (lines.map lineTax).sum := by
  refine ⟨calc_genelToplam_eq lines d, rfl, ?_, rfl, rfl, rfl, calc_kdvToplam_eq lines d⟩
  intro h
  rw [calc_genelToplam_eq]
  exact jsRound2_eq_roundAway2_of_nonneg _ h

/-- C2 counterexample: on the single line with a 100.5% line discount
the exact total is -0.005; `Math.round` maps -0.5 to -0 so the code
returns 0.00, while round-half-away-from-zero gives -0.01 — the claim's
rounding rule does not match the code. -/
theorem c2_rounding_counterexample :
    (calculateInvoice [c2Line] 0).genelToplam ≠
      roundAway2 ((calculateInvoice [c2Line] 0).araToplam +
        (calculateInvoice [c2Line] 0).kdvToplam) := by
  have hnet : (List.map lineNet [c2Line]).sum = -1/200 := by
    simp [lineNet, lineGross, lineDiscount, c2Line]
    norm_num
  have htax : (List.map lineTax [c2Line]).sum = 0 := by
    simp [lineTax, lineNet, lineGross, lineDiscount, c2Line]
  have hara : (calculateInvoice [c2Line] 0).araToplam = -1/200 := by
    rw [calc_araToplam_eq, hnet]
    norm_num
  have hkdv : (calculateInvoice [c2Line] 0).kdvToplam = 0 := by
    rw [calc_kdvToplam_eq, htax]
  have hg : (calculateInvoice [c2Line] 0).genelToplam = 0 := by
    rw [calc_genelToplam_eq, hara, hkdv]
    unfold jsRound2 jsRound
    have h0 : ((-1:ℚ)/200 + 0) * 100 + 1/2 = 0 := by norm_num
    rw [h0]
    norm_num
  have hra : roundAway2 ((calculateInvoice [c2Line] 0).araToplam +
      (calculateInvoice [c2Line] 0).kdvToplam) = -1/100 := by
    rw [hara, hkdv]
    unfold roundAway2 roundAway
    have h1 : ((-1:ℚ)/200 + 0) * 100 = -1/2 := by norm_num
    rw [h1, if_neg (by norm_num)]
    have h2 : -((-1:ℚ)/2) + 1/2 = 1 := by norm_num
    rw [h2]
    norm_num
  rw [hg, hra]
  norm_num

/-- C2 witness: on the empty invoice the total is 0 and the rounded
grand total agrees with round-half-away-from-zero, as the amended claim
states for nonnegative totals. -/
theorem c2_grand_total_rounding_witness :
    0 ≤ (calculateInvoice [] 0).araToplam + (calculateInvoice [] 0).kdvToplam ∧
    (calculateInvoice [] 0).genelToplam =
      roundAway2 ((calculateInvoice [] 0).araToplam + (calculateInvoice [] 0).kdvToplam) :=
  ⟨by simp [calc_araToplam_eq, calc_kdvToplam_eq],
   (c2_grand_total_rounding [] 0).2.2.1 (by simp [calc_araToplam_eq, calc_kdvToplam_eq])⟩

/-- C3: the code computes the first TCKN check digit with the JS `%`
remainder, which is negative when `oddSum*7 - evenSum` is negative; on
"19090000098" (oddSum 1, evenSum 18, difference -11) it compares digit
9 = 9 against -1 and rejects, while the spec's normalized modulus gives
(-11) mod 10 = 9 and accepts. -/
theorem c3_tckn_negative_mod :
    validateTCKN "19090000098" = false ∧
    validateTCKN_spec "19090000098" = true := by
  decide

/-- C4: `validateVKN` returns true iff the string is exactly 10 ASCII
digits whose tenth digit equals the check digit computed from the
weighted sum of the first nine with weights [9,8,7,6,5,4,3,2,1]
(remainder mod 11, kept when < 2, otherwise 11 - remainder); in
particular "1234567890" is accepted. -/
theorem c4_vkn_checksum_iff (s : String) :
    (validateVKN s = true ↔
      (s.data.length = 10 ∧ s.data.all Char.isDigit = true ∧
        (strDigits s).getD 9 0 = vknCheckDigitOf (strDigits s))) ∧
    validateVKN "1234567890" = true := by
  constructor
  · unfold validateVKN
    split
    · next hcond =>
        have hc : s.data.length = 10 ∧ s.data.all Char.isDigit = true := by
          simpa [allDigitsLen] using hcond
        have hlen : (strDigits s).length = 10 := by simp [strDigits, hc.1]
        simp only [beq_iff_eq]
        rw [zipWithWeights_sum (strDigits s) hlen]
        simp [vknCheckDigitOf, vknWeightedSum, hc.1, hc.2]
    · next hcond =>
        have hn : ¬(s.data.length = 10 ∧ s.data.all Char.isDigit = true) := by
          intro hc
          simp [allDigitsLen, hc.1, hc.2] at hcond
        constructor
        · intro hfalse
          exact absurd hfalse (by simp)
        · rintro ⟨hA, hB, _⟩
          exact absurd ⟨hA, hB⟩ hn
  · decide

/-- C4 witness: the characterization applied at "1234567890". -/
theorem c4_vkn_checksum_iff_witness : validateVKN "1234567890" = true :=
  (c4_vkn_checksum_iff "1234567890").2

/-- C5: a save attempt, draft or finalized, on an invoice whose buyer
fails `validateCustomer` (for example an empty buyer name) or whose
line list fails `validateInvoiceLines` (empty list, empty line name,
non-positive quantity, negative unit price, out-of-range tax rate)
returns a non-empty error list and leaves the whole state — in
particular the invoices catalog and the company sequence number —
unchanged. -/
theorem c5_invalid_save_aborts (st : AppState) (status : Durum) (nowId : String)
    (year : ℕ)
    (h : (validateCustomer st.currentInvoice.alici).1 = false ∨
         (validateInvoiceLines st.currentInvoice.satirlar).1 = false) :
    (saveInvoice st status nowId year).2 ≠ [] ∧
    (saveInvoice st status nowId year).1 = st ∧
    (saveInvoice st status nowId year).1.invoices = st.invoices ∧
    (saveInvoice st status nowId year).1.company.sira = st.company.sira := by
  cases hcv : (validateCustomer st.currentInvoice.alici).1 with
  | false =>
      have hne : (validateCustomer st.currentInvoice.alici).2 ≠ [] := by
        have hf := validateCustomer_fst st.currentInvoice.alici
        rw [hcv] at hf
        exact ne_nil_of_isEmpty_false hf.symm
      have hsave : saveInvoice st status nowId year =
          (st, (validateCustomer st.currentInvoice.alici).2) := by
        unfold saveInvoice
        simp [hcv]
      rw [hsave]
      exact ⟨hne, rfl, rfl, rfl⟩
  | true =>
      have hlv : (validateInvoiceLines st.currentInvoice.satirlar).1 = false := by
        rcases h with h | h
        · rw [hcv] at h
          cases h
        · exact h
      have hne : (validateInvoiceLines st.currentInvoice.satirlar).2 ≠ [] := by
        have hf := validateInvoiceLines_fst st.currentInvoice.satirlar
        rw [hlv] at hf
        exact ne_nil_of_isEmpty_false hf.symm
      have hsave : saveInvoice st status nowId year =
          (st, (validateInvoiceLines st.currentInvoice.satirlar).2) := by
        unfold saveInvoice
        simp [hcv, hlv]
      rw [hsave]
      exact ⟨hne, rfl, rfl, rfl⟩

/-- C5 witness: the concrete invalid save (empty buyer name) aborts and
leaves the state unchanged. -/
theorem c5_invalid_save_aborts_witness :
    (saveInvoice cexBadState Durum.taslak "1001" 2026).2 ≠ [] ∧
    (saveInvoice cexBadState Durum.taslak "1001" 2026).1 = cexBadState ∧
    (saveInvoice cexBadState Durum.taslak "1001" 2026).1.invoices =
      cexBadState.invoices ∧
    (saveInvoice cexBadState Durum.taslak "1001" 2026).1.company.sira =
      cexBadState.company.sira :=
  c5_invalid_save_aborts cexBadState Durum.taslak "1001" 2026 (Or.inl (by decide))

/-- C6 (amended): each successful save increments the company sequence
number by exactly one when the requested status is `tamamlandi`, in the
same state transition that stamps the saved invoice `tamamlandi`, and
leaves the company untouched when the status is `taslak`; however,
re-saving an already finalized invoice as finalized increments the
counter again, so one invoice can consume several sequence numbers (see
the counterexample). -/
theorem c6_sequence_increment (st : AppState) (nowId : String) (year : ℕ)
    (h1 : (validateCustomer st.currentInvoice.alici).1 = true)
    (h2 : (validateInvoiceLines st.currentInvoice.satirlar).1 = true) :
    (saveInvoice st Durum.taslak nowId year).1.company = st.company ∧
    (saveInvoice st Durum.tamamlandi nowId year).1.company.sira =
      st.company.sira + 1 ∧
    (savedInvoice st Durum.tamamlandi nowId year).durum = Durum.tamamlandi ∧
    (savedInvoice st Durum.taslak nowId year).durum = Durum.taslak := by
  refine ⟨?_, ?_, rfl, rfl⟩
  · rw [saveInvoice_success_eq st Durum.taslak nowId year h1 h2]
    simp
  · rw [saveInvoice_success_eq st Durum.tamamlandi nowId year h1 h2]
    simp

/-- C6 counterexample: finalizing the invoice "inv1", re-opening it
from the catalog and finalizing it again leaves one finalized invoice
in the catalog but advances the sequence counter from 1 to 3 — a single
finalized invoice made the counter advance twice. -/
theorem c6_sequence_counterexample :
    cexState0.company.sira = 1 ∧
    cexState2.invoices.length = 1 ∧
    (cexState2.invoices.getD 0 cexInvoice).durum = Durum.tamamlandi ∧
    (cexState2.invoices.getD 0 cexInvoice).id =
      (cexState1.invoices.getD 0 cexInvoice).id ∧
    cexState2.company.sira = 3 := by
  decide

/-- C6 witness: the amended claim applied at the concrete valid
state. -/
theorem c6_sequence_increment_witness :
    (saveInvoice cexState0 Durum.taslak "1001" 2026).1.company = cexState0.company ∧
    (saveInvoice cexState0 Durum.tamamlandi "1001" 2026).1.company.sira =
      cexState0.company.sira + 1 ∧
    (savedInvoice cexState0 Durum.tamamlandi "1001" 2026).durum = Durum.tamamlandi ∧
    (savedInvoice cexState0 Durum.taslak "1001" 2026).durum = Durum.taslak :=
  c6_sequence_increment cexState0 "1001" 2026 (by decide) (by decide)

/-- C7: the calculator returns as many lines as it was given, in the
same order, each line keeping its id, name, description, quantity,
unit, unit price, line discount percentage and tax rate, only the three
derived fields being (re)computed by `calcLine`. -/
theorem c7_lines_frame (lines : List InvoiceLine) (d : ℚ) :
    (calculateInvoice lines d).satirlar.length = lines.length ∧
    (calculateInvoice lines d).satirlar.map (fun l => l.id) =
      lines.map (fun l => l.id) ∧
    (calculateInvoice lines d).satirlar.map (fun l => l.urunAdi) =
      lines.map (fun l => l.urunAdi) ∧
    (calculateInvoice lines d).satirlar.map (fun l => l.aciklama) =
      lines.map (fun l => l.aciklama) ∧
    (calculateInvoice lines d).satirlar.map (fun l => l.adet) =
      lines.map (fun l => l.adet) ∧
    (calculateInvoice lines d).satirlar.map (fun l => l.birim) =
      lines.map (fun l => l.birim) ∧
    (calculateInvoice lines d).satirlar.map (fun l => l.birimFiyat) =
      lines.map (fun l => l.birimFiyat) ∧
    (calculateInvoice lines d).satirlar.map (fun l => l.iskontoYuzde) =
      lines.map (fun l => l.iskontoYuzde) ∧
    (calculateInvoice lines d).satirlar.map (fun l => l.kdvOran) =
      lines.map (fun l => l.kdvOran) ∧
    (calculateInvoice lines d).satirlar = lines.map calcLine := by
  refine ⟨by simp [calc_satirlar_eq], ?_, ?_, ?_, ?_, ?_, ?_, ?_, ?_, rfl⟩ <;>
    (rw [calc_satirlar_eq, List.map_map]; rfl)

/-- C8: the calculator is a pure function — two runs on identical
inputs produce identical line lists and identical values for all four
document aggregates. -/
theorem c8_calculator_deterministic (lines : List InvoiceLine) (d : ℚ) :
    calculateInvoice lines d = calculateInvoice lines d ∧
    (calculateInvoice lines d).satirlar = (calculateInvoice lines d).satirlar ∧
    (calculateInvoice lines d).araToplam = (calculateInvoice lines d).araToplam ∧
    (calculateInvoice lines d).iskontoToplam =
      (calculateInvoice lines d).iskontoToplam ∧
    (calculateInvoice lines d).kdvToplam = (calculateInvoice lines d).kdvToplam ∧
    (calculateInvoice lines d).genelToplam = (calculateInvoice lines d).genelToplam :=
  ⟨rfl, rfl, rfl, rfl, rfl, rfl⟩

/-- C9: the currency formatter renders the absolute value of its
argument, so opposite amounts produce the same Turkish-lira text and a
negative amount carries no minus sign. -/
theorem c9_format_abs_symmetric (x : ℚ) :
    formatTurkishCurrency x = intlFormatTRY |x| ∧
    formatTurkishCurrency x = formatTurkishCurrency (-x) := by
  refine ⟨rfl, ?_⟩
  unfold formatTurkishCurrency
  rw [abs_neg]

/-- C10: a validated save replaces in place the catalog entry with the
saved id when one exists — keeping the catalog length and every other
entry — and appends the invoice at the end otherwise, keeping all
previous entries. -/
theorem c10_catalog_replace_or_append (st : AppState) (status : Durum)
    (nowId : String) (year : ℕ)
    (h1 : (validateCustomer st.currentInvoice.alici).1 = true)
    (h2 : (validateInvoiceLines st.currentInvoice.satirlar).1 = true) :
    (saveInvoice st status nowId year).2 = [] ∧
    (match st.invoices.findIdx?
        (fun inv => inv.id == (savedInvoice st status nowId year).id) with
     | some i =>
         (saveInvoice st status nowId year).1.invoices =
           st.invoices.set i (savedInvoice st status nowId year) ∧
         (saveInvoice st status nowId year).1.invoices.length =
           st.invoices.length ∧
         ∀ j, j ≠ i →
           ((saveInvoice st status nowId year).1.invoices)[j]? = st.invoices[j]?
     | none =>
         (saveInvoice st status nowId year).1.invoices =
           st.invoices ++ [savedInvoice st status nowId year] ∧
         (saveInvoice st status nowId year).1.invoices.length =
           st.invoices.length + 1 ∧
         ∀ j, j < st.invoices.length →
           ((saveInvoice st status nowId year).1.invoices)[j]? = st.invoices[j]?) := by
  rw [saveInvoice_success_eq st status nowId year h1 h2]
  refine ⟨rfl, ?_⟩
  rcases hidx : st.invoices.findIdx?
      (fun inv => inv.id == (savedInvoice st status nowId year).id) with _ | i
  · rw [hidx]
    refine ⟨rfl, by simp, ?_⟩
    intro j hj
    exact List.getElem?_append_left hj
  · rw [hidx]
    refine ⟨rfl, by simp, ?_⟩
    intro j hj
    exact List.getElem?_set_ne (Ne.symm hj)

/-- C10 witness: saving the valid invoice into an empty catalog appends
it. -/
theorem c10_catalog_replace_or_append_witness :
    (saveInvoice cexState0 Durum.taslak "1001" 2026).2 = [] ∧
    ((saveInvoice cexState0 Durum.taslak "1001" 2026).1.invoices =
       cexState0.invoices ++ [savedInvoice cexState0 Durum.taslak "1001" 2026] ∧
     (saveInvoice cexState0 Durum.taslak "1001" 2026).1.invoices.length =
       cexState0.invoices.length + 1 ∧
     ∀ j, j < cexState0.invoices.length →
       ((saveInvoice cexState0 Durum.taslak "1001" 2026).1.invoices)[j]? =
         cexState0.invoices[j]?) :=
  c10_catalog_replace_or_append cexState0 Durum.taslak "1001" 2026
    (by decide) (by decide)
